import Mathlib

/-
Verification of the ARQ protocol simulator (src/main.py) against its
natural-language specification.

The Python source is shallowly embedded: payloads are lists of character
codes (Python `ord`), times are integers (the source uses a monotone real
clock; only order and differences matter — within one driver iteration the
poll happens at `tick` and everything transmitted afterwards is stamped
`tick + 1`, mirroring the strictly increasing wall clock), and the
fault-injecting randomness of the channel is an explicit oracle of
per-transmit decisions. Fallible operations (Python runtime errors such as
IndexError or an unbound local name) are modelled with `Except`.
-/

/-! # Definitions -/

/-- Python runtime failures that the source can actually raise. -/
inductive RunError where
  /-- `UnboundLocalError`: `run_protocol` used `transmitter` without it being bound. -/
  | unboundName : RunError
  /-- `IndexError`: a list was indexed out of bounds. -/
  | indexError : RunError
deriving DecidableEq, Repr

/-! ## DataPacket (src/main.py lines 10-26) -/

/-- `DataPacket.calculate_checksum`: `(sequence + sum of ord(c) for c in content) % 256`.
Sequence numbers can be negative (the windowed receiver acknowledges
`expected_sequence - 1`, which is `-1` initially), so the sequence is an `Int`
and `%` is Python's nonnegative-result modulo, i.e. `Int.emod` on a positive
modulus. -/
def calculate_checksum (sequence : Int) (content : List Nat) : Int :=
  (sequence + (content.foldl (fun a c => a + (c : Int)) 0)) % 256

/-- `DataPacket`: sequence number, content (character codes), ack flag, and the
`checksum_value` field stored on the object. -/
structure DataPacket where
  sequence : Int
  content : List Nat
  acknowledgment : Bool
  checksum_value : Int
deriving DecidableEq, Repr

/-- `DataPacket.__init__`: the stored checksum is always computed from the
constructor's own arguments (`self.checksum_value = self.calculate_checksum()`). -/
def mkPacket (sequence : Int) (content : List Nat) (acknowledgment : Bool) : DataPacket :=
  { sequence := sequence, content := content, acknowledgment := acknowledgment,
    checksum_value := calculate_checksum sequence content }

/-- `DataPacket.is_damaged`: the stored checksum disagrees with a fresh
recomputation from the current fields. -/
def DataPacket.is_damaged (p : DataPacket) : Bool :=
  p.checksum_value != calculate_checksum p.sequence p.content

/-! ## NetworkChannel (src/main.py lines 28-80) -/

/-- `NetworkChannel.modify_packet`: if the content is non-empty, one position
(chosen by `random.randint(0, len-1)`, here the explicit `index`) has its
character code increased by one, and a NEW `DataPacket` is constructed from
the modified content — so `__init__` recomputes the checksum. An empty-content
packet is returned unchanged. -/
def modify_packet (p : DataPacket) (index : Nat) : DataPacket :=
  if p.content.isEmpty then p
  else mkPacket p.sequence (p.content.set index (p.content.getD index 0 + 1)) p.acknowledgment

/-- The outcome of one `random.random()` / `random.randint` group inside
`NetworkChannel.transmit`: whether the packet is lost, whether it is damaged and
at which content index, and whether it is delayed and by how many time units
(the source samples the hold time in `[1, max_delay]`). -/
structure Decision where
  lose : Bool
  damage : Bool
  damageIdx : Nat
  delay : Bool
  holdTime : Nat
deriving Repr

/-- Channel state: the `in_transit` list of `(packet, delivery_time, destination)`
entries (destination `true` means receiver-bound) plus a counter into the fault
oracle (the oracle stands for the stream of pseudo-random draws). -/
structure ChannelState where
  in_transit : List (DataPacket × Int × Bool)
  cnt : Nat

/-- `NetworkChannel.transmit`: consume one fault decision; a lost packet leaves
no trace, otherwise the (possibly rebuilt) packet is appended with
`delivery_time = now + hold_time`. -/
def channel_transmit (oracle : Nat → Decision) (now : Int) (p : DataPacket)
    (to_recipient : Bool) (ch : ChannelState) : ChannelState :=
  let d := oracle ch.cnt
  if d.lose then { ch with cnt := ch.cnt + 1 }
  else
    let p' := if d.damage then modify_packet p d.damageIdx else p
    let hold : Int := if d.delay then (d.holdTime : Int) else 0
    { in_transit := ch.in_transit ++ [(p', now + hold, to_recipient)], cnt := ch.cnt + 1 }

/-- `NetworkChannel.deliver_packets`: walk `in_transit` in order, splitting it
into the delivered packets (due and addressed to `for_recipient`) and the
remaining entries. -/
def deliver_packets (in_transit : List (DataPacket × Int × Bool)) (current_time : Int)
    (for_recipient : Bool) : List DataPacket × List (DataPacket × Int × Bool) :=
  match in_transit with
  | [] => ([], [])
  | item :: rest =>
    let split := deliver_packets rest current_time for_recipient
    if current_time ≥ item.2.1 ∧ item.2.2 = for_recipient then
      (item.1 :: split.1, split.2)
    else
      (split.1, item :: split.2)

/-! ## Protocol selection (src/main.py lines 307-320) -/

/-- The three protocol variants the driver recognizes. -/
inductive ProtocolKind where
  | rdt : ProtocolKind
  | gbn : ProtocolKind
  | sr : ProtocolKind
deriving DecidableEq, Repr

/-- The `if/elif/elif` dispatch in `run_protocol`: there is no `else` branch, so
an unrecognized name leaves `transmitter`/`receiver` unbound. -/
def selectProtocol (protocol_name : String) : Option ProtocolKind :=
  if protocol_name = "rdt" then some ProtocolKind.rdt
  else if protocol_name = "gbn" then some ProtocolKind.gbn
  else if protocol_name = "sr" then some ProtocolKind.sr
  else none

/-! ## Payload synthesis (`create_payload`, identical in all three senders) -/

/-- Character codes of the decimal digits of a natural number. -/
def digitCodes (n : Nat) : List Nat :=
  (Nat.toDigits 10 n).map Char.toNat

/-- `create_payload(i, size)`: the codes of `"DATA{i}-"` padded with `'X'` (code
88) up to `size`; Python's negative string repetition is empty, matching
truncated `Nat` subtraction. -/
def create_payload (packet_number size : Nat) : List Nat :=
  let head := [68, 65, 84, 65] ++ digitCodes packet_number ++ [45]
  head ++ List.replicate (size - head.length) 88

/-! ## ReliableReceiver — Stop-and-Wait (src/main.py lines 125-146) -/

/-- State of the Stop-and-Wait receiver: alternating expectation bit and the
accepted payloads. -/
structure RdtRecvState where
  expected_sequence : Int
  received_data : List (List Nat)
deriving Repr

/-- `ReliableReceiver.receive_packet`: a damaged packet is answered with an ack
for the complement of the expectation; a clean packet is appended exactly when
its sequence matches the expectation (which then flips), and the sequence
actually received is always acknowledged. Returns the new state and the acks
handed to `channel.transmit`. -/
def rdt_receive_packet (s : RdtRecvState) (p : DataPacket) :
    RdtRecvState × List DataPacket :=
  if p.is_damaged then
    (s, [mkPacket (1 - s.expected_sequence) [] true])
  else
    let s' :=
      if p.sequence = s.expected_sequence then
        { expected_sequence := 1 - s.expected_sequence,
          received_data := s.received_data ++ [p.content] }
      else s
    (s', [mkPacket p.sequence [] true])

/-! ## WindowedReceiver — Go-Back-N (src/main.py lines 199-220) -/

/-- State of the Go-Back-N receiver. -/
structure GbnRecvState where
  expected_sequence : Int
  received_data : List (List Nat)
deriving Repr

/-- `WindowedReceiver.receive_packet`: strict in-order acceptance; every packet
(clean or damaged) is answered with an ack for `expected_sequence - 1`, the
last sequence actually accepted (evaluated after a possible acceptance). -/
def gbn_receive_packet (s : GbnRecvState) (p : DataPacket) :
    GbnRecvState × List DataPacket :=
  if p.is_damaged then
    (s, [mkPacket (s.expected_sequence - 1) [] true])
  else if p.sequence = s.expected_sequence then
    ({ expected_sequence := s.expected_sequence + 1,
       received_data := s.received_data ++ [p.content] },
     [mkPacket (s.expected_sequence + 1 - 1) [] true])
  else
    (s, [mkPacket (s.expected_sequence - 1) [] true])

/-! ## SelectiveReceiver (src/main.py lines 275-305) -/

/-- Replace the value under a key, or append the binding — the behaviour of a
Python dict assignment `buffer[seq] = content`, insertion order preserved. -/
def setKey (k : Int) (v : List Nat) : List (Int × List Nat) → List (Int × List Nat)
  | [] => [(k, v)]
  | (k', v') :: rest => if k' = k then (k, v) :: rest else (k', v') :: setKey k v rest

/-- Remove the binding of a key — Python's `del buffer[seq]`. -/
def eraseKey (k : Int) : List (Int × List Nat) → List (Int × List Nat)
  | [] => []
  | (k', v') :: rest => if k' = k then rest else (k', v') :: eraseKey k rest

/-- State of the Selective-Repeat receiver: window base, the out-of-order buffer
(a dict from sequence number to content), and the delivered payloads. -/
structure SrRecvState where
  base_sequence : Nat
  buffer : List (Int × List Nat)
  received_data : List (List Nat)
deriving Repr

/-- The drain loop of `SelectiveReceiver.receive_packet`:
`while base in buffer: append buffer[base]; del buffer[base]; base += 1`.
Each successful iteration removes one binding, so `buffer.length` rounds of
fuel are exactly enough to run the loop to completion: if the fuel runs out the
buffer has become empty and the loop guard fails anyway. -/
def sr_drain_aux (base : Nat) (buffer : List (Int × List Nat))
    (data : List (List Nat)) : Nat → Nat × List (Int × List Nat) × List (List Nat)
  | 0 => (base, buffer, data)
  | fuel + 1 =>
    match buffer.lookup (base : Int) with
    | some v => sr_drain_aux (base + 1) (eraseKey (base : Int) buffer) (data ++ [v]) fuel
    | none => (base, buffer, data)

/-- The drain loop, started with enough fuel. -/
def sr_drain (base : Nat) (buffer : List (Int × List Nat)) (data : List (List Nat)) :
    Nat × List (Int × List Nat) × List (List Nat) :=
  sr_drain_aux base buffer data buffer.length

/-- `SelectiveReceiver.receive_packet`: damaged packets are dropped without an
ack; a clean packet inside `[base, base+W)` is buffered and acknowledged, one
inside `[base-W, base)` is re-acknowledged without buffering, anything else is
ignored; then the buffer is drained from `base`. -/
def sr_receive_packet (window_size : Nat) (s : SrRecvState) (p : DataPacket) :
    SrRecvState × List DataPacket :=
  if p.is_damaged then (s, [])
  else
    let seq := p.sequence
    let step :=
      if (s.base_sequence : Int) ≤ seq ∧ seq < (s.base_sequence : Int) + window_size then
        (setKey seq p.content s.buffer, [mkPacket seq [] true])
      else if (s.base_sequence : Int) - window_size ≤ seq ∧ seq < (s.base_sequence : Int) then
        (s.buffer, [mkPacket seq [] true])
      else
        (s.buffer, [])
    let drained := sr_drain s.base_sequence step.1 s.received_data
    ({ base_sequence := drained.1, buffer := drained.2.1, received_data := drained.2.2 },
     step.2)

/-! ## ReliableSender — Stop-and-Wait (src/main.py lines 82-123) -/

/-- The packet list built by `ReliableSender.__init__`:
`DataPacket(i % 2, create_payload(i, size))` for `i` in `range(total)`. -/
def rdt_packets (total size : Nat) : List DataPacket :=
  (List.range total).map fun i => mkPacket ((i % 2 : Nat) : Int) (create_payload i size) false

/-- Stop-and-Wait sender state: lowest unacknowledged index and the single
timer (the time it was armed, `none` when cleared). The `current_sequence`
attribute of the source is initialized and never read, so it is omitted. -/
structure SWState where
  base_sequence : Nat
  timer : Option Int
deriving Repr

/-- `ReliableSender.begin_transmission` followed by `transmit_packet`: when no
timer is armed and unsent packets remain, the packet at `base_sequence` is
handed to the channel and the timer is armed at the transmission time. Returns
the new state and the indices handed to `channel.transmit`. -/
def sw_begin_transmission (total : Nat) (now : Int) (s : SWState) : SWState × List Nat :=
  if s.base_sequence < total ∧ s.timer = none then
    ({ s with timer := some now }, [s.base_sequence])
  else (s, [])

/-- `ReliableSender.process_acknowledgment`: a damaged ack is ignored;
otherwise `packets[base_sequence].sequence` is read — an `IndexError` when
`base_sequence` is out of range — and only a matching true ack advances the
base, clears the timer and attempts the next send. -/
def sw_process_acknowledgment (total size : Nat) (now : Int) (s : SWState)
    (ack : DataPacket) : Except RunError (SWState × List Nat) :=
  if ack.is_damaged then Except.ok (s, [])
  else
    match (rdt_packets total size)[s.base_sequence]? with
    | none => Except.error RunError.indexError
    | some pkt =>
      if ack.acknowledgment = true ∧ ack.sequence = pkt.sequence then
        Except.ok (sw_begin_transmission total now
          { base_sequence := s.base_sequence + 1, timer := none })
      else Except.ok (s, [])

/-- `ReliableSender.check_for_timeout`: when a timer is armed and has exceeded
the timeout duration, the packet at `base_sequence` is resent and the timer
restarted. (The source's `if self.timer` is Python truthiness on a wall-clock
float, which is never `0.0` in a run.) -/
def sw_check_for_timeout (timeout_duration now : Int) (s : SWState) : SWState × List Nat :=
  match s.timer with
  | some t =>
    if now - t > timeout_duration then ({ s with timer := some now }, [s.base_sequence])
    else (s, [])
  | none => (s, [])

/-! ## WindowedSender — Go-Back-N (src/main.py lines 148-197) -/

/-- The packet list of the windowed senders: `DataPacket(i, create_payload(i, size))`. -/
def window_packets (total size : Nat) : List DataPacket :=
  (List.range total).map fun i => mkPacket ((i : Nat) : Int) (create_payload i size) false

/-- Go-Back-N sender state. -/
structure GbnSenderState where
  base_sequence : Nat
  next_sequence : Nat
  timer : Option Int
deriving Repr

/-- The `while` loop of `WindowedSender.begin_transmission`: starting at
`next`, send and advance while `next < min(base + window, total)`. The bound is
fixed during the loop, so the remaining iteration count `bound - next` drives
the recursion; returns the new `next` and the sent indices in order. -/
def gbn_send_aux (next : Nat) : Nat → Nat × List Nat
  | 0 => (next, [])
  | fuel + 1 =>
    let rest := gbn_send_aux (next + 1) fuel
    (rest.1, next :: rest.2)

/-- `WindowedSender.begin_transmission`: send every unsent packet in the
window, then arm the timer if none is armed and something is outstanding. -/
def gbn_begin_transmission (window total : Nat) (now : Int) (s : GbnSenderState) :
    GbnSenderState × List Nat :=
  let sent := gbn_send_aux s.next_sequence (min (s.base_sequence + window) total - s.next_sequence)
  let timer' := if s.timer = none ∧ s.base_sequence < sent.1 then some now else s.timer
  ({ base_sequence := s.base_sequence, next_sequence := sent.1, timer := timer' }, sent.2)

/-- `WindowedSender.process_acknowledgment`: ignore damaged acks; a clean ack
with `base <= sequence < total` is cumulative: the base jumps past it, the
timer is cleared when the window closes (`base == next`) and restarted
otherwise, and newly eligible packets are sent. -/
def gbn_process_acknowledgment (window total : Nat) (now : Int) (s : GbnSenderState)
    (ack : DataPacket) : GbnSenderState × List Nat :=
  if ack.is_damaged then (s, [])
  else if (s.base_sequence : Int) ≤ ack.sequence ∧ ack.sequence < (total : Int) then
    gbn_begin_transmission window total now
      { base_sequence := (ack.sequence + 1).toNat,
        next_sequence := s.next_sequence,
        timer := if (ack.sequence + 1).toNat = s.next_sequence then none else some now }
  else (s, [])

/-- `WindowedSender.check_for_timeout`: on expiry, roll `next` back to `base`
and resend the whole window (the timer itself is only re-armed through
`begin_transmission` when it was cleared, matching the source, which leaves
`self.timer` untouched here). -/
def gbn_check_for_timeout (window total : Nat) (timeout_duration now : Int)
    (s : GbnSenderState) : GbnSenderState × List Nat :=
  match s.timer with
  | some t =>
    if now - t > timeout_duration then
      gbn_begin_transmission window total now { s with next_sequence := s.base_sequence }
    else (s, [])
  | none => (s, [])

/-- Reachable states of the Go-Back-N sender under any interleaving of its
three operations, with arbitrary acknowledgment packets, times and timeout
durations — a superset of what the driver loop can produce. -/
inductive GbnSenderReach (window total : Nat) : GbnSenderState → Prop where
  | init : GbnSenderReach window total ⟨0, 0, none⟩
  | begin (s : GbnSenderState) (now : Int) : GbnSenderReach window total s →
      GbnSenderReach window total (gbn_begin_transmission window total now s).1
  | ack (s : GbnSenderState) (now : Int) (p : DataPacket) : GbnSenderReach window total s →
      GbnSenderReach window total (gbn_process_acknowledgment window total now s p).1
  | timeout (s : GbnSenderState) (timeout_duration now : Int) :
      GbnSenderReach window total s →
      GbnSenderReach window total (gbn_check_for_timeout window total timeout_duration now s).1

/-! ## SelectiveSender (src/main.py lines 222-273) -/

/-- Selective-Repeat sender state: window base and per-sequence acknowledged
flags and timers across the full packet range. -/
structure SrSenderState where
  base_sequence : Nat
  acknowledged : List Bool
  timers : List (Option Int)
deriving Repr

/-- The window scan of `SelectiveSender.begin_transmission`: the indices in
`[base, min(base + window, total))` that are neither acknowledged nor currently
timed. Each loop iteration touches only its own `timers[seq]`, so the filter
over the original state is the loop's behaviour. -/
def sr_send_indices (window total : Nat) (s : SrSenderState) : List Nat :=
  (List.range' s.base_sequence (min (s.base_sequence + window) total - s.base_sequence)).filter
    fun seq => !(s.acknowledged.getD seq false) && (s.timers.getD seq none).isNone

/-- `SelectiveSender.begin_transmission`: send every eligible window index and
start its per-packet timer. -/
def sr_begin_transmission (window total : Nat) (now : Int) (s : SrSenderState) :
    SrSenderState × List Nat :=
  let sends := sr_send_indices window total s
  ({ s with timers := sends.foldl (fun ts i => ts.set i (some now)) s.timers }, sends)

/-- The base slide of `SelectiveSender.process_acknowledgment`:
`while base < total and acknowledged[base]: base += 1`. The fuel
`total - base` encodes the `base < total` guard. -/
def sr_slide_aux (acknowledged : List Bool) : Nat → Nat → Nat
  | base, 0 => base
  | base, fuel + 1 =>
    if acknowledged.getD base false then sr_slide_aux acknowledged (base + 1) fuel else base

/-- The base slide, with its fuel. -/
def sr_slide_base (acknowledged : List Bool) (total base : Nat) : Nat :=
  sr_slide_aux acknowledged base (total - base)

/-- `SelectiveSender.process_acknowledgment`: ignore damaged acks; an in-range,
not-yet-acknowledged sequence is marked, its timer cleared, the base slid past
the contiguous acknowledged run, and newly eligible packets sent. -/
def sr_process_acknowledgment (window total : Nat) (now : Int) (s : SrSenderState)
    (ack : DataPacket) : SrSenderState × List Nat :=
  if ack.is_damaged then (s, [])
  else if 0 ≤ ack.sequence ∧ ack.sequence < (total : Int)
      ∧ s.acknowledged.getD ack.sequence.toNat false = false then
    sr_begin_transmission window total now
      { base_sequence := sr_slide_base (s.acknowledged.set ack.sequence.toNat true) total
          s.base_sequence,
        acknowledged := s.acknowledged.set ack.sequence.toNat true,
        timers := s.timers.set ack.sequence.toNat none }
  else (s, [])

/-- `SelectiveSender.check_for_timeout`: resend every unacknowledged window
index whose timer has expired, restarting only its timer. (As elsewhere,
`if self.timers[seq]` is float truthiness, never `0.0` in a run.) -/
def sr_check_for_timeout (window total : Nat) (timeout_duration now : Int)
    (s : SrSenderState) : SrSenderState × List Nat :=
  let resends :=
    (List.range' s.base_sequence (min (s.base_sequence + window) total - s.base_sequence)).filter
      fun seq => !(s.acknowledged.getD seq false) &&
        (match s.timers.getD seq none with
         | some t => decide (now - t > timeout_duration)
         | none => false)
  ({ s with timers := resends.foldl (fun ts i => ts.set i (some now)) s.timers }, resends)

/-! ## The driver loop (src/main.py lines 307-351) -/

/-- Fault decisions for the evidence runs: an undisturbed transmission. -/
def noFault : Decision :=
  { lose := false, damage := false, damageIdx := 0, delay := false, holdTime := 0 }

/-- Fault schedule corrupting only the very first transmission, at content
position 0. -/
def corruptFirst : Nat → Decision := fun n =>
  if n = 0 then { noFault with damage := true } else noFault

/-- Fault schedule for the duplicate-final-ack scenario under Stop-and-Wait:
the first acknowledgment (transmission 1) is delayed 3 units and the duplicate
acknowledgment (transmission 3) is delayed 1 unit, so both arrive in the same
poll batch; all delays are within the default `max_delay = 3`. -/
def dupAckOracle : Nat → Decision := fun n =>
  if n = 1 then { noFault with delay := true, holdTime := 3 }
  else if n = 3 then { noFault with delay := true, holdTime := 1 }
  else noFault

/-- Fault schedule for the stale-duplicate-data scenario under Stop-and-Wait,
at the faithful scale of one time unit per 0.1s driver tick (so the source's
`timeout = 2`s is 20 units and `max_delay = 3`s is 30 units): the first
transmission of packet 0 is delayed 3s (30 units) and packet 2 (transmission 5)
is delayed 1s (10 units); everything else is undisturbed. -/
def dupDataOracle : Nat → Decision := fun n =>
  if n = 0 then { noFault with delay := true, holdTime := 30 }
  else if n = 5 then { noFault with delay := true, holdTime := 10 }
  else noFault

/-- Look up the packets at the given indices; Python raises `IndexError` on an
out-of-range access. -/
def fetch_packets (packets : List DataPacket) : List Nat → Except RunError (List DataPacket)
  | [] => Except.ok []
  | i :: rest =>
    match packets[i]? with
    | some p => (fetch_packets packets rest).map fun l => p :: l
    | none => Except.error RunError.indexError

/-- Transmit a list of packets in order. -/
def transmit_all (oracle : Nat → Decision) (now : Int) (to_recipient : Bool)
    (ps : List DataPacket) (ch : ChannelState) : ChannelState :=
  ps.foldl (fun c p => channel_transmit oracle now p to_recipient c) ch

/-- The run summary of `run_protocol` (the wall-clock `duration` is omitted as
untranslatable timing): `success_rate = received/total` guarded at
`total = 0`, and `timeout_occurred` true iff the loop left `base < total`. -/
structure RunResults where
  protocol : ProtocolKind
  total_packets : Nat
  received_packets : Nat
  success_rate : Rat
  timeout_occurred : Bool
deriving Repr

/-- The `results` dict built at the end of `run_protocol`. -/
def mk_results (k : ProtocolKind) (total received base : Nat) : RunResults :=
  { protocol := k, total_packets := total, received_packets := received,
    success_rate := if total > 0 then (received : Rat) / (total : Rat) else 0,
    timeout_occurred := decide (base < total) }

/-- Driver state for Stop-and-Wait. -/
structure RdtSim where
  channel : ChannelState
  sender : SWState
  receiver : RdtRecvState

/-- One iteration of the driver loop for Stop-and-Wait: poll receiver-bound
deliveries at `tick` and feed them to the receiver (acks go out at `tick + 1`),
poll sender-bound deliveries at `tick` and feed them to the sender (sends go
out at `tick + 1`), then check the timeout at `tick + 1`. -/
def rdt_step (total size : Nat) (timeout_duration : Int) (oracle : Nat → Decision)
    (tick : Int) (sim : RdtSim) : Except RunError RdtSim := do
  let recvSplit := deliver_packets sim.channel.in_transit tick true
  let afterRecv := recvSplit.1.foldl
    (fun (acc : RdtRecvState × ChannelState) p =>
      let out := rdt_receive_packet acc.1 p
      (out.1, transmit_all oracle (tick + 1) false out.2 acc.2))
    (sim.receiver, { sim.channel with in_transit := recvSplit.2 })
  let sendSplit := deliver_packets afterRecv.2.in_transit tick false
  let afterAcks ← sendSplit.1.foldlM
    (fun (acc : SWState × ChannelState) a => do
      let out ← sw_process_acknowledgment total size (tick + 1) acc.1 a
      let ps ← fetch_packets (rdt_packets total size) out.2
      Except.ok (out.1, transmit_all oracle (tick + 1) true ps acc.2))
    (sim.sender, { afterRecv.2 with in_transit := sendSplit.2 })
  let afterTo := sw_check_for_timeout timeout_duration (tick + 1) afterAcks.1
  let ps ← fetch_packets (rdt_packets total size) afterTo.2
  Except.ok { channel := transmit_all oracle (tick + 1) true ps afterAcks.2,
              sender := afterTo.1, receiver := afterRecv.1 }

/-- The driver's `while` loop for Stop-and-Wait: stop when `base` reaches
`total`; the wall-time budget is the iteration fuel. Polls happen at even
steps of one tick. -/
def rdt_loop (total size : Nat) (timeout_duration : Int) (oracle : Nat → Decision) :
    Nat → Int → RdtSim → Except RunError RdtSim
  | 0, _, sim => Except.ok sim
  | fuel + 1, tick, sim =>
    if sim.sender.base_sequence < total then do
      let sim' ← rdt_step total size timeout_duration oracle tick sim
      rdt_loop total size timeout_duration oracle fuel (tick + 1) sim'
    else Except.ok sim

/-- `run_protocol` for the Stop-and-Wait pair: construct the pair, start the
transmission (stamped at time 1), run the loop from tick 2, and report. -/
def rdt_run_protocol (total size : Nat) (timeout_duration : Int) (oracle : Nat → Decision)
    (fuel : Nat) : Except RunError (List (List Nat) × RunResults) := do
  let started := sw_begin_transmission total 1 ⟨0, none⟩
  let ps ← fetch_packets (rdt_packets total size) started.2
  let sim ← rdt_loop total size timeout_duration oracle fuel 2
    { channel := transmit_all oracle 1 true ps ⟨[], 0⟩,
      sender := started.1, receiver := ⟨0, []⟩ }
  Except.ok (sim.receiver.received_data,
    mk_results ProtocolKind.rdt total sim.receiver.received_data.length
      sim.sender.base_sequence)

/-- Driver state for Go-Back-N. -/
structure GbnSim where
  channel : ChannelState
  sender : GbnSenderState
  receiver : GbnRecvState

/-- One iteration of the driver loop for Go-Back-N. -/
def gbn_step (window total size : Nat) (timeout_duration : Int) (oracle : Nat → Decision)
    (tick : Int) (sim : GbnSim) : Except RunError GbnSim := do
  let recvSplit := deliver_packets sim.channel.in_transit tick true
  let afterRecv := recvSplit.1.foldl
    (fun (acc : GbnRecvState × ChannelState) p =>
      let out := gbn_receive_packet acc.1 p
      (out.1, transmit_all oracle (tick + 1) false out.2 acc.2))
    (sim.receiver, { sim.channel with in_transit := recvSplit.2 })
  let sendSplit := deliver_packets afterRecv.2.in_transit tick false
  let afterAcks ← sendSplit.1.foldlM
    (fun (acc : GbnSenderState × ChannelState) a => do
      let out := gbn_process_acknowledgment window total (tick + 1) acc.1 a
      let ps ← fetch_packets (window_packets total size) out.2
      Except.ok (out.1, transmit_all oracle (tick + 1) true ps acc.2))
    (sim.sender, { afterRecv.2 with in_transit := sendSplit.2 })
  let afterTo := gbn_check_for_timeout window total timeout_duration (tick + 1) afterAcks.1
  let ps ← fetch_packets (window_packets total size) afterTo.2
  Except.ok { channel := transmit_all oracle (tick + 1) true ps afterAcks.2,
              sender := afterTo.1, receiver := afterRecv.1 }

/-- The driver's `while` loop for Go-Back-N. -/
def gbn_loop (window total size : Nat) (timeout_duration : Int) (oracle : Nat → Decision) :
    Nat → Int → GbnSim → Except RunError GbnSim
  | 0, _, sim => Except.ok sim
  | fuel + 1, tick, sim =>
    if sim.sender.base_sequence < total then do
      let sim' ← gbn_step window total size timeout_duration oracle tick sim
      gbn_loop window total size timeout_duration oracle fuel (tick + 1) sim'
    else Except.ok sim

/-- `run_protocol` for the Go-Back-N pair. -/
def gbn_run_protocol (window total size : Nat) (timeout_duration : Int)
    (oracle : Nat → Decision) (fuel : Nat) :
    Except RunError (List (List Nat) × RunResults) := do
  let started := gbn_begin_transmission window total 1 ⟨0, 0, none⟩
  let ps ← fetch_packets (window_packets total size) started.2
  let sim ← gbn_loop window total size timeout_duration oracle fuel 2
    { channel := transmit_all oracle 1 true ps ⟨[], 0⟩,
      sender := started.1, receiver := ⟨0, []⟩ }
  Except.ok (sim.receiver.received_data,
    mk_results ProtocolKind.gbn total sim.receiver.received_data.length
      sim.sender.base_sequence)

/-- Driver state for Selective-Repeat. -/
structure SrSim where
  channel : ChannelState
  sender : SrSenderState
  receiver : SrRecvState

/-- One iteration of the driver loop for Selective-Repeat. -/
def sr_step (window total size : Nat) (timeout_duration : Int) (oracle : Nat → Decision)
    (tick : Int) (sim : SrSim) : Except RunError SrSim := do
  let recvSplit := deliver_packets sim.channel.in_transit tick true
  let afterRecv := recvSplit.1.foldl
    (fun (acc : SrRecvState × ChannelState) p =>
      let out := sr_receive_packet window acc.1 p
      (out.1, transmit_all oracle (tick + 1) false out.2 acc.2))
    (sim.receiver, { sim.channel with in_transit := recvSplit.2 })
  let sendSplit := deliver_packets afterRecv.2.in_transit tick false
  let afterAcks ← sendSplit.1.foldlM
    (fun (acc : SrSenderState × ChannelState) a => do
      let out := sr_process_acknowledgment window total (tick + 1) acc.1 a
      let ps ← fetch_packets (window_packets total size) out.2
      Except.ok (out.1, transmit_all oracle (tick + 1) true ps acc.2))
    (sim.sender, { afterRecv.2 with in_transit := sendSplit.2 })
  let afterTo := sr_check_for_timeout window total timeout_duration (tick + 1) afterAcks.1
  let ps ← fetch_packets (window_packets total size) afterTo.2
  Except.ok { channel := transmit_all oracle (tick + 1) true ps afterAcks.2,
              sender := afterTo.1, receiver := afterRecv.1 }

/-- The driver's `while` loop for Selective-Repeat. -/
def sr_loop (window total size : Nat) (timeout_duration : Int) (oracle : Nat → Decision) :
    Nat → Int → SrSim → Except RunError SrSim
  | 0, _, sim => Except.ok sim
  | fuel + 1, tick, sim =>
    if sim.sender.base_sequence < total then do
      let sim' ← sr_step window total size timeout_duration oracle tick sim
      sr_loop window total size timeout_duration oracle fuel (tick + 1) sim'
    else Except.ok sim

/-- `run_protocol` for the Selective-Repeat pair. -/
def sr_run_protocol (window total size : Nat) (timeout_duration : Int)
    (oracle : Nat → Decision) (fuel : Nat) :
    Except RunError (List (List Nat) × RunResults) := do
  let started := sr_begin_transmission window total 1
    ⟨0, List.replicate total false, List.replicate total none⟩
  let ps ← fetch_packets (window_packets total size) started.2
  let sim ← sr_loop window total size timeout_duration oracle fuel 2
    { channel := transmit_all oracle 1 true ps ⟨[], 0⟩,
      sender := started.1, receiver := ⟨0, [], []⟩ }
  Except.ok (sim.receiver.received_data,
    mk_results ProtocolKind.sr total sim.receiver.received_data.length
      sim.sender.base_sequence)

/-- `run_protocol` with the protocol chosen by kind. -/
def run_for_kind (k : ProtocolKind) (total window size : Nat) (timeout_duration : Int)
    (oracle : Nat → Decision) (fuel : Nat) :
    Except RunError (List (List Nat) × RunResults) :=
  match k with
  | ProtocolKind.rdt => rdt_run_protocol total size timeout_duration oracle fuel
  | ProtocolKind.gbn => gbn_run_protocol window total size timeout_duration oracle fuel
  | ProtocolKind.sr => sr_run_protocol window total size timeout_duration oracle fuel

/-- `run_protocol` from its name argument: an unrecognized name leaves
`transmitter` unbound and the immediately following
`transmitter.begin_transmission()` raises `UnboundLocalError`. -/
def run_protocol_model (protocol_name : String) (total window size : Nat)
    (timeout_duration : Int) (oracle : Nat → Decision) (fuel : Nat) :
    Except RunError (List (List Nat) × RunResults) :=
  match selectProtocol protocol_name with
  | some k => run_for_kind k total window size timeout_duration oracle fuel
  | none => Except.error RunError.unboundName

/-! # Theorems -/

/-- Bind of a successful `Except` computation. -/
theorem except_ok_bind {ε α β : Type} (x : α) (f : α → Except ε β) :
    (Except.ok x : Except ε α) >>= f = f x := rfl

/-- Basic fact used throughout: every packet built by the `DataPacket`
constructor passes the integrity check, because the stored checksum is the
recomputation. -/
theorem mkPacket_not_damaged (s : Int) (c : List Nat) (a : Bool) :
    (mkPacket s c a).is_damaged = false := by
  simp [mkPacket, DataPacket.is_damaged]

/-! ## Claim C1 -/

/-- C1: the claim states that the Link's corruption event carries the original
integrity token forward unchanged so that the replacement fails `damaged()`.
In the source, `modify_packet` rebuilds the replacement through the
`DataPacket` constructor, which recomputes the checksum from the corrupted
content, so the replacement is NOT flagged as damaged. Concretely, corrupting
position 0 of the packet `(seq 0, "DATA0-")` yields a replacement with the
same sequence number and ack flag and one character code increased by one,
whose stored checksum differs from the original token and whose `is_damaged()`
is `false` (the claim requires `true`). The half of the claim about unmodified
delivery does hold: every constructed packet has `is_damaged() = false`, and
the Link never mutates a packet in place. -/
theorem C1_corruption_checksum_recomputed :
    (∀ (s : Int) (c : List Nat) (a : Bool), (mkPacket s c a).is_damaged = false) ∧
    (modify_packet (mkPacket 0 [68, 65, 84, 65, 48, 45] false) 0).sequence = 0 ∧
    (modify_packet (mkPacket 0 [68, 65, 84, 65, 48, 45] false) 0).acknowledgment = false ∧
    (modify_packet (mkPacket 0 [68, 65, 84, 65, 48, 45] false) 0).content
      = [69, 65, 84, 65, 48, 45] ∧
    (modify_packet (mkPacket 0 [68, 65, 84, 65, 48, 45] false) 0).checksum_value
      ≠ (mkPacket 0 [68, 65, 84, 65, 48, 45] false).checksum_value ∧
    (modify_packet (mkPacket 0 [68, 65, 84, 65, 48, 45] false) 0).is_damaged = false := by
  refine ⟨mkPacket_not_damaged, ?_, ?_, ?_, ?_, ?_⟩ <;> decide

/-! ## Claim C6 -/

/-- C6: `deliver_packets` removes and returns, in insertion order, exactly the
entries addressed to the requested destination whose delivery time is at or
before the current time; every other entry remains queued unchanged and in
order. -/
theorem C6_deliver_packets_characterization (l : List (DataPacket × Int × Bool))
    (current_time : Int) (for_recipient : Bool) :
    deliver_packets l current_time for_recipient =
      ((l.filter fun item =>
          decide (current_time ≥ item.2.1) && decide (item.2.2 = for_recipient)).map
            (fun item => item.1),
       l.filter fun item =>
          !(decide (current_time ≥ item.2.1) && decide (item.2.2 = for_recipient))) := by
  induction l with
  | nil => rfl
  | cons item rest ih =>
    simp only [deliver_packets, ih, List.filter_cons]
    by_cases h1 : current_time ≥ item.2.1 <;> by_cases h2 : item.2.2 = for_recipient <;>
      simp [h1, h2]

/-! ## Claim C8 -/

/-- C8: the claim states that redelivering an already-delivered clean unit
never duplicates entries in `received_data`, for all three receivers. It fails
for the Stop-and-Wait receiver: its sequence numbers live mod 2, so a stale
duplicate from two acceptances back carries the SAME bit as the current
expectation and is accepted again. First conjunct: with expectation 0 and
`received_data = ["DATA0-", "DATA1-"]`, redelivering the already-appended
clean unit 0 appends it a second time. The next conjuncts reproduce the
scenario end to end in the driver (`total = 3`, one time unit per 0.1s tick,
timeout 20 units = 2s): packet 0 is delayed 3s, its timeout resend is
accepted, packet 1 is accepted (the expectation wraps back to 0), packet 2 is
delayed 1s — so the delayed original packet 0 arrives first, matches the
expectation and is appended again: the run ends with
`["DATA0-", "DATA1-", "DATA0-"]`, a duplicated entry (and reports 3 packets
received without timeout although packet 2's payload never arrived). The
Go-Back-N and Selective-Repeat receivers use unwrapped sequence numbers and do
not exhibit this. -/
theorem C8_sw_duplicate_appended :
    (rdt_receive_packet
        (⟨0, [create_payload 0 6, create_payload 1 6]⟩ : RdtRecvState)
        (mkPacket 0 (create_payload 0 6) false)).1.received_data
      = [create_payload 0 6, create_payload 1 6, create_payload 0 6] ∧
    (rdt_run_protocol 3 6 20 dupDataOracle 40).map Prod.fst
      = Except.ok [create_payload 0 6, create_payload 1 6, create_payload 0 6] ∧
    (rdt_run_protocol 3 6 20 dupDataOracle 40).map (fun r => r.2.timeout_occurred)
      = Except.ok false ∧
    create_payload 0 6 = [68, 65, 84, 65, 48, 45] ∧
    create_payload 1 6 = [68, 65, 84, 65, 49, 45] :=
  ⟨rfl, rfl, rfl, rfl, rfl⟩

/-- The packets of `ReliableSender` at an in-range index. -/
theorem rdt_packets_get (total size i : Nat) (h : i < total) :
    (rdt_packets total size)[i]?
      = some (mkPacket ((i % 2 : Nat) : Int) (create_payload i size) false) := by
  simp [rdt_packets, List.getElem?_map, List.getElem?_range h]

/-! ## Claim C7 -/

/-- C7: behaviour of the Stop-and-Wait sender's `process_acknowledgment` on a
well-formed state (`base_sequence` in range). A damaged ack leaves the state
(base and timer) unchanged and sends nothing. A clean ack with the ack flag set
and the sequence equal to `packets[base_sequence].sequence` (which is
`base_sequence % 2`) advances the base, clears the timer and attempts the next
send — which transmits packet `base+1` and re-arms the timer exactly when
`base+1` is still in range. Any other clean ack leaves the state unchanged and
resends nothing. -/
theorem C7_sw_process_acknowledgment_cases (total size : Nat) (now : Int) (s : SWState)
    (ack : DataPacket) (h : s.base_sequence < total) :
    (ack.is_damaged = true →
      sw_process_acknowledgment total size now s ack = Except.ok (s, [])) ∧
    (ack.is_damaged = false → ack.acknowledgment = true →
      ack.sequence = ((s.base_sequence % 2 : Nat) : Int) →
      sw_process_acknowledgment total size now s ack
        = Except.ok (sw_begin_transmission total now
            { base_sequence := s.base_sequence + 1, timer := none })) ∧
    (ack.is_damaged = false →
      ¬ (ack.acknowledgment = true ∧ ack.sequence = ((s.base_sequence % 2 : Nat) : Int)) →
      sw_process_acknowledgment total size now s ack = Except.ok (s, [])) ∧
    (sw_begin_transmission total now { base_sequence := s.base_sequence + 1, timer := none }
      = if s.base_sequence + 1 < total then
          ({ base_sequence := s.base_sequence + 1, timer := some now }, [s.base_sequence + 1])
        else ({ base_sequence := s.base_sequence + 1, timer := none }, [])) := by
  refine ⟨?_, ?_, ?_, ?_⟩
  · intro hd
    simp [sw_process_acknowledgment, hd]
  · intro hd hf hseq
    simp [sw_process_acknowledgment, hd, rdt_packets_get total size _ h, mkPacket, hf, hseq]
  · intro hd hne
    simp only [sw_process_acknowledgment, hd, Bool.false_eq_true, if_false,
      rdt_packets_get total size _ h]
    rw [if_neg]
    simpa [mkPacket] using hne
  · by_cases h1 : s.base_sequence + 1 < total
    · simp [sw_begin_transmission, h1]
    · simp [sw_begin_transmission, h1]

/-- C7 witness: `total = 2`, base 0 with an armed timer; a clean matching ack
for sequence 0 at time 5 advances the base to 1, clears the timer, and the
attempted next send transmits packet 1 re-arming the timer at 5. -/
theorem C7_sw_process_acknowledgment_cases_witness :
    sw_process_acknowledgment 2 6 5 ⟨0, some 1⟩ (mkPacket 0 [] true)
      = Except.ok (⟨1, some 5⟩, [1]) := by
  have hmain := (C7_sw_process_acknowledgment_cases 2 6 5 ⟨0, some 1⟩ (mkPacket 0 [] true)
    (by decide)).2.1 (by decide) (by decide) (by decide)
  rw [hmain]
  rfl

/-- The send loop advances `next` by exactly its fuel. -/
theorem gbn_send_aux_fst (next fuel : Nat) : (gbn_send_aux next fuel).1 = next + fuel := by
  induction fuel generalizing next with
  | zero => rfl
  | succ fuel ih =>
    show (gbn_send_aux (next + 1) fuel).1 = next + (fuel + 1)
    rw [ih]
    omega

/-- After `begin_transmission`, `next` stays at most `base + window` provided it
was so before. -/
theorem gbn_begin_next_le (window total : Nat) (now : Int) (s : GbnSenderState)
    (h : s.next_sequence ≤ s.base_sequence + window) :
    (gbn_begin_transmission window total now s).1.next_sequence
      ≤ (gbn_begin_transmission window total now s).1.base_sequence + window := by
  simp only [gbn_begin_transmission, gbn_send_aux_fst]
  omega

/-- `process_acknowledgment` preserves the window bound. -/
theorem gbn_ack_next_le (window total : Nat) (now : Int) (s : GbnSenderState)
    (p : DataPacket) (h : s.next_sequence ≤ s.base_sequence + window) :
    (gbn_process_acknowledgment window total now s p).1.next_sequence
      ≤ (gbn_process_acknowledgment window total now s p).1.base_sequence + window := by
  rw [gbn_process_acknowledgment]
  by_cases hd : p.is_damaged = true
  · simpa [hd] using h
  · simp only [hd, Bool.false_eq_true, if_false]
    by_cases hr : (s.base_sequence : Int) ≤ p.sequence ∧ p.sequence < (total : Int)
    · rw [if_pos hr]
      apply gbn_begin_next_le
      show s.next_sequence ≤ (p.sequence + 1).toNat + window
      omega
    · simpa [hr] using h

/-- `check_for_timeout` preserves the window bound. -/
theorem gbn_timeout_next_le (window total : Nat) (timeout_duration now : Int)
    (s : GbnSenderState) (h : s.next_sequence ≤ s.base_sequence + window) :
    (gbn_check_for_timeout window total timeout_duration now s).1.next_sequence
      ≤ (gbn_check_for_timeout window total timeout_duration now s).1.base_sequence
        + window := by
  obtain ⟨base, next, timer⟩ := s
  cases timer with
  | none => simpa [gbn_check_for_timeout] using h
  | some t =>
    by_cases hexp : now - t > timeout_duration
    · rw [gbn_check_for_timeout]
      simp only [hexp, if_pos]
      apply gbn_begin_next_le
      show base ≤ base + window
      omega
    · simpa [gbn_check_for_timeout, hexp] using h

/-! ## Claim C5 -/

/-- C5: in every reachable state of the Go-Back-N sender — after any
interleaving of `begin_transmission`, `process_acknowledgment` and
`check_for_timeout` — the number of outstanding units
`next_sequence - base_sequence` never exceeds `window_size`. -/
theorem C5_gbn_sender_window_bound (window total : Nat) (s : GbnSenderState)
    (h : GbnSenderReach window total s) :
    (s.next_sequence : Int) - (s.base_sequence : Int) ≤ (window : Int) := by
  suffices hs : s.next_sequence ≤ s.base_sequence + window by omega
  induction h with
  | init => exact Nat.zero_le _
  | begin s now _ ih => exact gbn_begin_next_le window total now s ih
  | ack s now p _ ih => exact gbn_ack_next_le window total now s p ih
  | timeout s timeout_duration now _ ih =>
    exact gbn_timeout_next_le window total timeout_duration now s ih

/-- C5 witness: the concrete reachable state after one `begin_transmission`
from the initial state with `window = 2`, `total = 5` satisfies the bound. -/
theorem C5_gbn_sender_window_bound_witness :
    ((gbn_begin_transmission 2 5 1 ⟨0, 0, none⟩).1.next_sequence : Int)
      - ((gbn_begin_transmission 2 5 1 ⟨0, 0, none⟩).1.base_sequence : Int) ≤ (2 : Int) :=
  C5_gbn_sender_window_bound 2 5 _
    (GbnSenderReach.begin _ 1 GbnSenderReach.init)

/-! ## Claim C2 -/

/-- C2: the claim states that an unrecognized protocol selector fails fast with
a descriptive rejection before any sender/receiver state is constructed. The
source's `if/elif/elif` has no `else`: for a name such as `"tcp"` the dispatch
yields nothing, `transmitter`/`receiver` stay unbound, and the very next
statement `transmitter.begin_transmission()` raises `UnboundLocalError` — a
crash, not a descriptive configuration rejection (the spec itself brands this
original behavior a defect to fix). -/
theorem C2_unknown_selector_not_rejected (total window size : Nat)
    (timeout_duration : Int) (oracle : Nat → Decision) (fuel : Nat) :
    selectProtocol "tcp" = none ∧
    run_protocol_model "tcp" total window size timeout_duration oracle fuel
      = Except.error RunError.unboundName :=
  ⟨rfl, rfl⟩

/-! ## Claim C9 -/

/-- C9: the claim states that `packets[base_sequence]` is always in bounds when
the Stop-and-Wait sender processes a clean acknowledgment. It is not: with
`total = 1` and a fault schedule within the source's defaults (first ack
delayed 3, duplicate ack delayed 1, `timeout = 2`), the timeout resends packet
0, the receiver echoes a duplicate ack, and both acks for sequence 0 land in
the same sender poll batch. The first advances `base_sequence` to `total`; the
second is clean, so `process_acknowledgment` reads `packets[1]` of a length-1
list — Python raises `IndexError`. The whole driver run evaluates to that
error. -/
theorem C9_duplicate_final_ack_index_error :
    rdt_run_protocol 1 6 2 dupAckOracle 5 = Except.error RunError.indexError := rfl

/-! ## Claim C3 -/

/-- C3: the claim states that under the driver loop with the fault-injecting
Link, the Go-Back-N receiver's `received_data` is always a prefix of the
intended payloads. Corrupting the single data packet at content position 0
(`total = 1`, `window = 1`) breaks this: the corrupted replacement carries a
freshly recomputed checksum, passes `is_damaged()`, matches the expected
sequence 0, and its corrupted content `"EATA0-"` is appended — the delivered
data is not the intended payload `"DATA0-"` for index 0. The structural part
(indices in order, no gaps) is untouched; the content equality fails. -/
theorem C3_gbn_corrupted_payload_accepted :
    (gbn_run_protocol 1 1 6 2 corruptFirst 3).map Prod.fst
      = Except.ok [[69, 65, 84, 65, 48, 45]] ∧
    (gbn_run_protocol 1 1 6 2 corruptFirst 3).map (fun r => r.2.timeout_occurred)
      = Except.ok false ∧
    create_payload 0 6 = [68, 65, 84, 65, 48, 45] ∧
    ([[69, 65, 84, 65, 48, 45]] : List (List Nat)) ≠ [create_payload 0 6] :=
  ⟨rfl, rfl, rfl, by decide⟩

/-! ## Claim C4 -/

/-- C4: the claim states that the Selective-Repeat receiver's `received_data`
always equals the intended payloads for sequence numbers `0..base-1`. The same
corruption as in the Go-Back-N case (`total = 1`, `window = 1`, first
transmission corrupted at position 0) is buffered undetected and drained into
`received_data`: the run completes (no timeout, so `base = total = 1`) with
delivered content `"EATA0-"` instead of the intended payload for index 0. -/
theorem C4_sr_corrupted_payload_accepted :
    (sr_run_protocol 1 1 6 2 corruptFirst 3).map Prod.fst
      = Except.ok [[69, 65, 84, 65, 48, 45]] ∧
    (sr_run_protocol 1 1 6 2 corruptFirst 3).map (fun r => r.2.timeout_occurred)
      = Except.ok false ∧
    ([[69, 65, 84, 65, 48, 45]] : List (List Nat)) ≠ [create_payload 0 6] :=
  ⟨rfl, rfl, by decide⟩

/-- A finished Stop-and-Wait driver loop (base at or past total) is a no-op. -/
theorem rdt_loop_done (total size : Nat) (timeout_duration : Int)
    (oracle : Nat → Decision) (fuel : Nat) (tick : Int) (sim : RdtSim)
    (h : ¬ sim.sender.base_sequence < total) :
    rdt_loop total size timeout_duration oracle fuel tick sim = Except.ok sim := by
  cases fuel <;> simp [rdt_loop, h]

/-- A finished Go-Back-N driver loop is a no-op. -/
theorem gbn_loop_done (window total size : Nat) (timeout_duration : Int)
    (oracle : Nat → Decision) (fuel : Nat) (tick : Int) (sim : GbnSim)
    (h : ¬ sim.sender.base_sequence < total) :
    gbn_loop window total size timeout_duration oracle fuel tick sim = Except.ok sim := by
  cases fuel <;> simp [gbn_loop, h]

/-- A finished Selective-Repeat driver loop is a no-op. -/
theorem sr_loop_done (window total size : Nat) (timeout_duration : Int)
    (oracle : Nat → Decision) (fuel : Nat) (tick : Int) (sim : SrSim)
    (h : ¬ sim.sender.base_sequence < total) :
    sr_loop window total size timeout_duration oracle fuel tick sim = Except.ok sim := by
  cases fuel <;> simp [sr_loop, h]

/-- With `total = 0` the Go-Back-N start transmission sends nothing and leaves
the state unchanged. -/
theorem gbn_begin_zero (window : Nat) (now : Int) :
    gbn_begin_transmission window 0 now ⟨0, 0, none⟩ = (⟨0, 0, none⟩, []) := by
  simp [gbn_begin_transmission, gbn_send_aux]

/-- With `total = 0` the Selective-Repeat start transmission sends nothing and
leaves the (empty-range) state unchanged. -/
theorem sr_begin_zero (window : Nat) (now : Int) :
    sr_begin_transmission window 0 now ⟨0, List.replicate 0 false, List.replicate 0 none⟩
      = (⟨0, [], []⟩, []) := by
  simp [sr_begin_transmission, sr_send_indices]

/-! ## Claim C10 -/

/-- C10: a run with `total = 0`, under any protocol, window, fault schedule and
time budget, reports `success_rate = 0` (the division is guarded by
`if total > 0`), `timeout_occurred = false` (`base_sequence < total` is
`0 < 0`), and an empty `received_data`: the driver loop's guard fails at once,
so the receiver never observes anything. -/
theorem C10_zero_total_run (k : ProtocolKind) (window size : Nat)
    (timeout_duration : Int) (oracle : Nat → Decision) (fuel : Nat) :
    run_for_kind k 0 window size timeout_duration oracle fuel
      = Except.ok ([],
          { protocol := k, total_packets := 0, received_packets := 0,
            success_rate := 0, timeout_occurred := false }) := by
  cases k with
  | rdt =>
    have hloop := rdt_loop_done 0 size timeout_duration oracle fuel 2
      { channel := { in_transit := [], cnt := 0 },
        sender := { base_sequence := 0, timer := none },
        receiver := { expected_sequence := 0, received_data := [] } } (by simp)
    show Except.bind (rdt_loop 0 size timeout_duration oracle fuel 2
        { channel := { in_transit := [], cnt := 0 },
          sender := { base_sequence := 0, timer := none },
          receiver := { expected_sequence := 0, received_data := [] } })
      (fun sim => Except.ok (sim.receiver.received_data,
        mk_results ProtocolKind.rdt 0 sim.receiver.received_data.length
          sim.sender.base_sequence)) = _
    rw [hloop]
    rfl
  | gbn =>
    have hloop := gbn_loop_done window 0 size timeout_duration oracle fuel 2
      { channel := { in_transit := [], cnt := 0 },
        sender := { base_sequence := 0, next_sequence := 0, timer := none },
        receiver := { expected_sequence := 0, received_data := [] } } (by simp)
    show gbn_run_protocol window 0 size timeout_duration oracle fuel = _
    unfold gbn_run_protocol
    rw [gbn_begin_zero]
    show Except.bind (gbn_loop window 0 size timeout_duration oracle fuel 2
        { channel := { in_transit := [], cnt := 0 },
          sender := { base_sequence := 0, next_sequence := 0, timer := none },
          receiver := { expected_sequence := 0, received_data := [] } })
      (fun sim => Except.ok (sim.receiver.received_data,
        mk_results ProtocolKind.gbn 0 sim.receiver.received_data.length
          sim.sender.base_sequence)) = _
    rw [hloop]
    rfl
  | sr =>
    have hloop := sr_loop_done window 0 size timeout_duration oracle fuel 2
      { channel := { in_transit := [], cnt := 0 },
        sender := { base_sequence := 0, acknowledged := [], timers := [] },
        receiver := { base_sequence := 0, buffer := [], received_data := [] } } (by simp)
    show sr_run_protocol window 0 size timeout_duration oracle fuel = _
    unfold sr_run_protocol
    rw [sr_begin_zero]
    show Except.bind (sr_loop window 0 size timeout_duration oracle fuel 2
        { channel := { in_transit := [], cnt := 0 },
          sender := { base_sequence := 0, acknowledged := [], timers := [] },
          receiver := { base_sequence := 0, buffer := [], received_data := [] } })
      (fun sim => Except.ok (sim.receiver.received_data,
        mk_results ProtocolKind.sr 0 sim.receiver.received_data.length
          sim.sender.base_sequence)) = _
    rw [hloop]
    rfl
